import Mathlib

/-
Verification of the NewOS process and thread subsystem (kernel thread.c,
shipped in this repository inside src/kernel/net/udp.c after the UDP code)
against its natural-language specification.

The C code is shallowly embedded: intrusive doubly-linked queues become Lean
lists (list_add_tail = append at the tail, list_remove_head = take the head),
the global hash tables (thread_hash, proc_hash, pgid_hash, sid_hash) become
association lists keyed by id, pointers become ids resolved through those
tables, and machine integers become Int (no arithmetic here ever overflows a
64-bit quantity on the inputs considered; bigtime_t sums are modelled as
unbounded Int).
-/

namespace NewOS

/-- Modelled from the spec: the error taxonomy is a flat set of negative
sentinels (newos/errors.h is not in src/). The exact numeric values are
immaterial to every claim; only distinctness and negativity are used. -/
def NO_ERROR : Int := 0

def ERR_GENERAL : Int := -1

def ERR_NO_MEMORY : Int := -2

def ERR_INVALID_ARGS : Int := -3

def ERR_INVALID_HANDLE : Int := -4

def ERR_NOT_FOUND : Int := -5

def ERR_TASK_PROC_DELETED : Int := -6

def ERR_SEM_DELETED : Int := -7

/-- Modelled from the spec: signal numbers (kernel/signal.h is not in src/).
Only distinctness matters. -/
def SIGHUP : Int := 1

def SIGCONT : Int := 18

def SIGSTOP : Int := 19

def SIGKILLTHR : Int := 21

/-- Modelled from the spec: priority band constants (kernel/thread.h is not in
src/). The dispatcher splits levels into an idle-only priority 0, a regular
band 1..THREAD_MAX_PRIORITY and a real-time band
THREAD_MIN_RT_PRIORITY..THREAD_MAX_RT_PRIORITY at the top. -/
def THREAD_IDLE_PRIORITY : Nat := 0

def THREAD_MIN_PRIORITY : Nat := 1

def THREAD_MEDIUM_PRIORITY : Nat := 16

def THREAD_HIGH_PRIORITY : Nat := 30

def THREAD_MAX_PRIORITY : Nat := 31

def THREAD_MIN_RT_PRIORITY : Nat := 32

def THREAD_MAX_RT_PRIORITY : Nat := 63

def THREAD_NUM_PRIORITY_LEVELS : Nat := 64

/-- Run queues: one FIFO of thread ids per priority level. The head of the
list is the head of the queue. -/
def RunQs : Type := Nat → List Nat

/-- thread_enqueue: list_add_tail inserts a thread at the tail of a queue. -/
def thread_enqueue (t : Nat) (q : List Nat) : List Nat :=
  q ++ [t]

/-- thread_lookat_queue: list_peek_head_type returns the head without
removing it. -/
def thread_lookat_queue (q : List Nat) : Option Nat :=
  q.head?

/-- thread_dequeue: list_remove_head_type removes and returns the head. -/
def thread_dequeue (q : List Nat) : Option (Nat × List Nat) :=
  match q with
  | [] => none
  | t :: ts => some (t, ts)

/-- Pointwise update of one run-queue level. -/
def setQ (rq : RunQs) (i : Nat) (q : List Nat) : RunQs :=
  fun j => if j = i then q else rq j

/-- thread_enqueue_run_q: clamp the priority into [0, THREAD_MAX_PRIORITY]
and tail-insert into the run queue of that level. -/
def thread_enqueue_run_q (rq : RunQs) (t : Nat) (priority : Int) : RunQs :=
  let pri : Nat :=
    if priority > (THREAD_MAX_PRIORITY : Int) then THREAD_MAX_PRIORITY
    else if priority < 0 then 0
    else priority.toNat
  setQ rq pri (thread_enqueue t (rq pri))

/-- Real-time scan of thread_resched: walk the given priority levels in order
and dequeue from the first non-empty one. Returns the dequeued thread, its
level and the updated queues. -/
def scanRT : List Nat → RunQs → Option (Nat × Nat × RunQs)
  | [], _ => none
  | i :: rest, rq =>
    match rq i with
    | [] => scanRT rest rq
    | t :: ts => some (t, i, setQ rq i ts)

/-- Regular-band scan of thread_resched: walk the given priority levels in
order; at each non-empty level consume one pseudo-random value (the k-th call
of _rand returns rand k); if it exceeds 0x3000 dequeue immediately, otherwise
remember the level in last_thread_pri and continue. Returns the immediate
pick (if any), the final last_thread_pri and the final rand counter. -/
def scanReg (rand : Nat → Int) :
    List Nat → Nat → Option Nat → RunQs →
    Option (Nat × Nat × RunQs) × Option Nat × Nat
  | [], k, last, _ => (none, last, k)
  | i :: rest, k, last, rq =>
    match rq i with
    | [] => scanReg rand rest k last rq
    | t :: ts =>
      if rand k > 0x3000 then
        (some (t, i, setQ rq i ts), last, k + 1)
      else
        scanReg rand rest (k + 1) (some i) rq

/-- Descending real-time priorities THREAD_MAX_RT_PRIORITY down to
THREAD_MIN_RT_PRIORITY, the order of the first loop of thread_resched. -/
def rtScanOrder : List Nat :=
  (List.range' THREAD_MIN_RT_PRIORITY 32).reverse

/-- Descending regular priorities THREAD_MAX_PRIORITY down to
THREAD_IDLE_PRIORITY + 1, the order of the second loop of thread_resched. -/
def regScanOrder : List Nat :=
  (List.range' THREAD_MIN_PRIORITY 31).reverse

/-- Selection portion of thread_resched (the code after the old thread has
been re-enqueued): scan the real-time band, then the regular band with the
randomized skip, then fall back to last_thread_pri, then to the idle queue.
The source panics where this returns none (empty fallback or idle queue). -/
def thread_resched_select (rand : Nat → Int) (rq : RunQs) :
    Option (Nat × RunQs) :=
  match scanRT rtScanOrder rq with
  | some (t, _, rqOut) => some (t, rqOut)
  | none =>
    match scanReg rand regScanOrder 0 none rq with
    | (some (t, _, rqOut), _, _) => some (t, rqOut)
    | (none, some lastPri, _) =>
      match rq lastPri with
      | t :: ts => some (t, setQ rq lastPri ts)
      | [] => none
    | (none, none, _) =>
      match rq THREAD_IDLE_PRIORITY with
      | t :: ts => some (t, setQ rq THREAD_IDLE_PRIORITY ts)
      | [] => none

/-- Iterate the dispatcher selection n times, collecting the chosen thread
ids in order. Each invocation starts a fresh _rand stream. -/
def reschedPicks (rand : Nat → Int) : RunQs → Nat → List Nat
  | _, 0 => []
  | rq, n + 1 =>
    match thread_resched_select rand rq with
    | none => []
    | some (t, rqOut) => t :: reschedPicks rand rqOut n

/-- Process states PROC_STATE_BIRTH, PROC_STATE_NORMAL, PROC_STATE_DEATH. -/
inductive ProcState where
  | BIRTH
  | NORMAL
  | DEATH
  deriving DecidableEq, Repr

/-- Thread states (struct thread . state / next_state). -/
inductive TState where
  | BIRTH
  | READY
  | RUNNING
  | WAITING
  | SUSPENDED
  | FREE_ON_RESCHED
  deriving DecidableEq, Repr

/-- Which accounting bucket is currently accruing (last_time_type). -/
inductive TimeType where
  | KERNEL_TIME
  | USER_TIME
  deriving DecidableEq, Repr

/-- State of a semaphore as seen by a blocked or arriving acquirer.
Modelled from the spec: the semaphore collaborator (sem.c is not in src/)
creates sems, and deleting a sem with a retcode makes every acquire on it
return ERR_SEM_DELETED together with that retcode. A deleted sem is kept
here as a tombstone carrying the deletion code, which models the value the
deletion hands to a waiter whose acquire resolves against it. -/
inductive SemState where
  | active
  | deleted (retcode : Int)
  deriving DecidableEq, Repr

/-- One semaphore table entry. -/
structure SemRec where
  id : Int
  state : SemState
  deriving DecidableEq, Repr

/-- The fields of struct thread used by the claims. Pointers to the owning
process become the process id. -/
structure ThreadRec where
  id : Int
  proc_id : Int
  return_code_sem : Int
  state : TState
  priority : Int
  user_stack_base : Int
  user_time : Int
  kernel_time : Int
  deriving DecidableEq, Repr

/-- The fields of struct proc used by the claims. The parent pointer becomes
the parent process id (every process has one; the kernel process is its own
parent); main_thread is the thread id behind the main_thread pointer, none
standing for a NULL pointer. -/
structure ProcRec where
  id : Int
  pgid : Int
  sid : Int
  parent : Int
  state : ProcState
  main_thread : Option Int
  num_threads : Int
  deriving DecidableEq, Repr

/-- Global kernel state: the hash tables as association lists, the pgroup and
session tables reduced to the set of existing node ids (membership in the
intrusive member list of a node is represented by the pgid and sid fields of
the processes, which the code keeps in sync and ASSERTs), the id allocators,
and the id of the process of the calling thread. -/
structure KState where
  threads : List ThreadRec
  procs : List ProcRec
  pgroups : List Int
  sessions : List Int
  sems : List SemRec
  next_thread_id : Int
  next_sem_id : Int
  cur_proc : Int
  deriving DecidableEq, Repr

/-- hash_lookup in thread_hash (thread_get_thread_struct_locked). -/
def threadLookup : List ThreadRec → Int → Option ThreadRec
  | [], _ => none
  | t :: rest, id => if t.id = id then some t else threadLookup rest id

/-- hash_lookup in proc_hash (proc_get_proc_struct_locked). -/
def procLookup : List ProcRec → Int → Option ProcRec
  | [], _ => none
  | p :: rest, id => if p.id = id then some p else procLookup rest id

/-- Lookup in the semaphore table. -/
def semLookup : List SemRec → Int → Option SemRec
  | [], _ => none
  | s :: rest, id => if s.id = id then some s else semLookup rest id

/-- Modelled from the spec: sem_delete_etc(sem, retcode) deletes the sem,
waking blocked acquirers with ERR_SEM_DELETED and the given retcode; the
tombstone keeps that retcode visible to the linearized acquire below. -/
def sem_delete_etc (sems : List SemRec) (id : Int) (retcode : Int) :
    List SemRec :=
  sems.map fun s => if s.id = id then { s with state := .deleted retcode } else s

/-- Modelled from the spec: sem_acquire_etc with SEM_FLAG_INTERRUPTABLE on the
return-code sem. A negative or unknown sem id fails with ERR_INVALID_HANDLE;
an acquire that resolves against a sem deleted with a retcode returns
ERR_SEM_DELETED and stores that retcode through the out pointer (second
component; none means the out value was never written); an acquire on a live
sem succeeds. Blocking is linearized: the caller passes the sem table as of
the moment its acquire resolves. -/
def sem_acquire_etc (sems : List SemRec) (id : Int) : Int × Option Int :=
  if id < 0 then (ERR_INVALID_HANDLE, none)
  else
    match semLookup sems id with
    | none => (ERR_INVALID_HANDLE, none)
    | some s =>
      match s.state with
      | .active => (NO_ERROR, none)
      | .deleted rc => (ERR_SEM_DELETED, some rc)

/-- Modelled from the spec: send_signal_etc delivers a signal to a thread id,
failing with ERR_INVALID_HANDLE when the id is not in the thread index. Only
this success/failure shape is needed by the claims. -/
def send_signal_etc (s : KState) (id : Int) (_sig : Int) : Int :=
  match threadLookup s.threads id with
  | some _ => NO_ERROR
  | none => ERR_INVALID_HANDLE

/-- insert_thread_into_proc: add the thread at the head of the process thread
list, bump num_threads, and designate it main_thread if it is the first. The
thread list itself is tracked through the proc_id fields of the threads; here
only the process record changes. -/
def insert_thread_into_proc (p : ProcRec) (t : ThreadRec) : ProcRec :=
  let p := { p with num_threads := p.num_threads + 1 }
  if p.num_threads = 1 then { p with main_thread := some t.id } else p

/-- Replace the process record with the given id. -/
def setProc (procs : List ProcRec) (id : Int) (f : ProcRec → ProcRec) :
    List ProcRec :=
  procs.map fun p => if p.id = id then f p else p

/-- Replace the thread record with the given id. -/
def setThread (threads : List ThreadRec) (id : Int) (f : ThreadRec → ThreadRec) :
    List ThreadRec :=
  threads.map fun t => if t.id = id then f t else t

/-- The _create_thread path up to the point the claims observe: allocate a
thread record with a fresh id and a fresh return-code sem
(create_thread_struct), insert it into the global thread index, then under
the process lock look up the target process; if it is missing or in DEATH,
remove the record from the index again, free it (delete_thread_struct, which
also deletes the fresh sem) and fail with ERR_TASK_PROC_DELETED; otherwise
insert the thread into the process and finish with the thread SUSPENDED,
returning its id. Stack creation and arch setup either succeed or panic in
the source and are not modelled. -/
def _create_thread (s : KState) (pid : Int) : Int × KState :=
  let tid := s.next_thread_id
  let semid := s.next_sem_id
  let t : ThreadRec :=
    { id := tid, proc_id := pid, return_code_sem := semid,
      state := .BIRTH, priority := (THREAD_MEDIUM_PRIORITY : Nat),
      user_stack_base := 0, user_time := 0, kernel_time := 0 }
  let s1 : KState :=
    { s with
      threads := t :: s.threads,
      sems := ⟨semid, .active⟩ :: s.sems,
      next_thread_id := tid + 1,
      next_sem_id := semid + 1 }
  match procLookup s1.procs pid with
  | some p =>
    if p.state = ProcState.DEATH then
      (ERR_TASK_PROC_DELETED,
        { s1 with
          threads := s1.threads.filter fun x => x.id ≠ tid,
          sems := s1.sems.filter fun x => x.id ≠ semid })
    else
      (tid,
        { s1 with
          procs := setProc s1.procs p.id (fun q => insert_thread_into_proc q t),
          threads := setThread s1.threads tid
            (fun x => { x with state := .SUSPENDED }) })
  | none =>
    (ERR_TASK_PROC_DELETED,
      { s1 with
        threads := s1.threads.filter fun x => x.id ≠ tid,
        sems := s1.sems.filter fun x => x.id ≠ semid })

/-- The retcode-publishing step of thread_exit (the block that saves
return_code_sem, clears it to -1 in the record and calls
sem_delete_etc(sem, retcode)). -/
def thread_exit_publish_retcode (s : KState) (tid : Int) (retcode : Int) :
    KState :=
  match threadLookup s.threads tid with
  | none => s
  | some t =>
    { s with
      threads := setThread s.threads tid
        (fun x => { x with return_code_sem := -1 }),
      sems := sem_delete_etc s.sems t.return_code_sem retcode }

/-- thread_wait_on_thread: send CONT to the target (unknown ids already fail
here), read its return_code_sem under the thread lock, then acquire that sem;
an ERR_SEM_DELETED outcome is normalized to NO_ERROR. The acquire may block;
its resolution is linearized by passing the sem table as of wake-up time
(semsAtWake), while the id and sem are read from the state s at call time.
Returns the error code and the value stored through the retcode pointer. -/
def thread_wait_on_thread (s : KState) (semsAtWake : List SemRec) (id : Int) :
    Int × Option Int :=
  let rc := send_signal_etc s id SIGCONT
  if rc < NO_ERROR then (rc, none)
  else
    let sem :=
      match threadLookup s.threads id with
      | some t => t.return_code_sem
      | none => ERR_INVALID_HANDLE
    let r := sem_acquire_etc semsAtWake sem
    (if r.1 = ERR_SEM_DELETED then NO_ERROR else r.1, r.2)

/-- check_for_pgrp_connection: look up the pgroup node; if present, scan its
member list (the processes whose pgid field names the group, which the source
ASSERTs) for a member other than ignore whose parent has pgid check_for. -/
def check_for_pgrp_connection (s : KState) (pgid : Int) (check_for : Int)
    (ignore : Option Int) : Bool :=
  if pgid ∈ s.pgroups then
    s.procs.any fun q =>
      q.pgid == pgid &&
      (match ignore with
       | some ig => q.id != ig
       | none => true) &&
      (match procLookup s.procs q.parent with
       | some par => par.pgid == check_for
       | none => false)
  else false

/-- The orphaned-pgroup check of thread_exit (the block guarded by
delete_proc, lines entering the process lock): when the exiting process
shares its session with its parent but not its pgroup, and
check_for_pgrp_connection with the exiting process ignored finds no
remaining connection, SIGHUP and then SIGCONT are sent to the pgroup of the
exiting process. The result lists the (pgid, signal) fan-outs performed, in
order. -/
def thread_exit_orphan_signals (s : KState) (p : ProcRec) : List (Int × Int) :=
  match procLookup s.procs p.parent with
  | none => []
  | some par =>
    if p.sid = par.sid ∧ p.pgid ≠ par.pgid then
      if check_for_pgrp_connection s p.pgid par.pgid (some p.id) then []
      else [(p.pgid, SIGHUP), (p.pgid, SIGCONT)]
    else []

/-- setsid: normalize (the target sid is the id of the calling process), look
the caller up; if already in that session succeed immediately; otherwise
create the session node if it does not exist, move the process out of its old
session and into the new one, and return err, which is NO_ERROR on success
(allocation always succeeds in the model). Note the source returns the error
code through its sess_id return type. -/
def setsid (s : KState) : Int × KState :=
  let pid := s.cur_proc
  let sid := pid
  match procLookup s.procs pid with
  | none => (ERR_NOT_FOUND, s)
  | some p =>
    if p.sid = sid then (NO_ERROR, s)
    else
      let s1 :=
        if sid ∈ s.sessions then s
        else { s with sessions := sid :: s.sessions }
      (NO_ERROR,
        { s1 with procs := setProc s1.procs pid (fun q => { q with sid := sid }) })

/-- setpgid: reject negative arguments, normalize (pid 0 is the caller,
pgid 0 is pid), look the process up; if already in the target group succeed;
otherwise create the pgroup node if needed, move the process between the
member lists and record the new pgid (allocation always succeeds in the
model). -/
def setpgid (s : KState) (pid0 : Int) (pgid0 : Int) : Int × KState :=
  if pid0 < 0 ∨ pgid0 < 0 then (ERR_INVALID_ARGS, s)
  else
    let pid := if pid0 = 0 then s.cur_proc else pid0
    let pgid := if pgid0 = 0 then pid else pgid0
    match procLookup s.procs pid with
    | none => (ERR_NOT_FOUND, s)
    | some p =>
      if p.pgid = pgid then (NO_ERROR, s)
      else
        let s1 :=
          if pgid ∈ s.pgroups then s
          else { s with pgroups := pgid :: s.pgroups }
        (NO_ERROR,
          { s1 with procs := setProc s1.procs pid (fun q => { q with pgid := pgid }) })

/-- getpgid: reject negative pids, normalize pid 0 to the caller, and return
the pgid field of the process, or ERR_NOT_FOUND for an unknown id. -/
def getpgid (s : KState) (pid0 : Int) : Int :=
  if pid0 < 0 then ERR_INVALID_ARGS
  else
    let pid := if pid0 = 0 then s.cur_proc else pid0
    match procLookup s.procs pid with
    | none => ERR_NOT_FOUND
    | some p => p.pgid

/-- The tid computation of proc_wait_on_proc: under the process lock, tid is
the id of the main thread if the process exists and its main_thread pointer
is set, ERR_INVALID_HANDLE otherwise; a negative tid is returned at once
(the subsequent thread_wait_on_thread call is not part of this claim). -/
def proc_wait_on_proc_tid (s : KState) (id : Int) : Int :=
  match procLookup s.procs id with
  | some p =>
    match p.main_thread with
    | some tid => tid
    | none => ERR_INVALID_HANDLE
  | none => ERR_INVALID_HANDLE

/-- The tid computation of proc_kill_proc: p->main_thread->id is read with no
null check whenever the process is found; none models the undefined null
dereference, some the defined outcome (the tid, or ERR_INVALID_HANDLE when
the process is unknown). -/
def proc_kill_proc_tid (s : KState) (id : Int) : Option Int :=
  match procLookup s.procs id with
  | some p =>
    match p.main_thread with
    | some tid => some tid
    | none => none
  | none => some ERR_INVALID_HANDLE

/-- proc_get_main_thread: identical shape to proc_kill_proc_tid, again with
no null check on main_thread. -/
def proc_get_main_thread (s : KState) (id : Int) : Option Int :=
  match procLookup s.procs id with
  | some p =>
    match p.main_thread with
    | some tid => some tid
    | none => none
  | none => some ERR_INVALID_HANDLE

/-- The numeric payload of struct thread_info copied out by
thread_get_thread_info (the bounded name copy is not modelled). -/
structure ThreadInfoRec where
  id : Int
  owner_proc_id : Int
  state : TState
  priority : Int
  user_stack_base : Int
  user_time : Int
  kernel_time : Int
  deriving DecidableEq, Repr

/-- The payload of struct proc_info copied out by proc_get_proc_info. -/
structure ProcInfoRec where
  pid : Int
  ppid : Int
  pgid : Int
  sid : Int
  state : ProcState
  num_threads : Int
  deriving DecidableEq, Repr

/-- thread_get_thread_info: build the info from the thread record when the
lookup succeeds, then perform the copy-out only when err is non-negative
(the trailing if err then memcpy of the source); none means the caller
structure was never written. -/
def thread_get_thread_info (s : KState) (id : Int) : Int × Option ThreadInfoRec :=
  let r : Int × Option ThreadInfoRec :=
    match threadLookup s.threads id with
    | none => (ERR_INVALID_HANDLE, none)
    | some t =>
      (NO_ERROR, some
        { id := id, owner_proc_id := t.proc_id, state := t.state,
          priority := t.priority, user_stack_base := t.user_stack_base,
          user_time := t.user_time, kernel_time := t.kernel_time })
  (r.1, if r.1 ≥ 0 then r.2 else none)

/-- proc_get_proc_info: same copy-out discipline as
thread_get_thread_info. -/
def proc_get_proc_info (s : KState) (id : Int) : Int × Option ProcInfoRec :=
  let r : Int × Option ProcInfoRec :=
    match procLookup s.procs id with
    | none => (ERR_INVALID_HANDLE, none)
    | some p =>
      (NO_ERROR, some
        { pid := id, ppid := p.parent, pgid := p.pgid, sid := p.sid,
          state := p.state, num_threads := p.num_threads })
  (r.1, if r.1 ≥ 0 then r.2 else none)

/-- How last_thread_pri evolves along a scan in which every randomized check
said skip: each non-empty level overwrites the remembered level. -/
def lastNonEmpty (rq : RunQs) : List Nat → Option Nat → Option Nat
  | [], acc => acc
  | i :: rest, acc =>
    match rq i with
    | [] => lastNonEmpty rq rest acc
    | _ :: _ => lastNonEmpty rq rest (some i)

/-- The accounting fields of a thread touched by thread_context_switch. -/
structure SchedTimes where
  user_time : Int
  kernel_time : Int
  last_time : Int
  last_time_type : TimeType
  deriving DecidableEq, Repr

/-- The time-accounting prefix of thread_context_switch: credit the outgoing
thread bucket selected by last_time_type with now - last_time, and stamp the
incoming thread with last_time = now. Returns the updated (outgoing,
incoming) pair; no other thread is touched by the source here. -/
def thread_context_switch_times (t_from t_to : SchedTimes) (now : Int) :
    SchedTimes × SchedTimes :=
  let t_from :=
    if t_from.last_time_type = TimeType.KERNEL_TIME then
      { t_from with kernel_time := t_from.kernel_time + (now - t_from.last_time) }
    else
      { t_from with user_time := t_from.user_time + (now - t_from.last_time) }
  (t_from, { t_to with last_time := now })

/-- Concrete kernel state used by witnesses: process 1 is the kernel process
(its own parent, founder of pgroup 1 and session 1, main thread 1); process
2 lives in pgroup 2 inside session 1 with main thread 4, whose return-code
sem is 5; process 3 is in DEATH with no main thread left. -/
def exampleState : KState :=
  { threads :=
      [ { id := 1, proc_id := 1, return_code_sem := 0, state := .RUNNING,
          priority := 16, user_stack_base := 0, user_time := 0, kernel_time := 0 },
        { id := 4, proc_id := 2, return_code_sem := 5, state := .READY,
          priority := 16, user_stack_base := 0, user_time := 3, kernel_time := 7 } ],
    procs :=
      [ { id := 1, pgid := 1, sid := 1, parent := 1, state := .NORMAL,
          main_thread := some 1, num_threads := 1 },
        { id := 2, pgid := 2, sid := 1, parent := 1, state := .NORMAL,
          main_thread := some 4, num_threads := 1 },
        { id := 3, pgid := 1, sid := 1, parent := 1, state := .DEATH,
          main_thread := none, num_threads := 0 } ],
    pgroups := [1, 2],
    sessions := [1],
    sems := [⟨0, .active⟩, ⟨5, .active⟩],
    next_thread_id := 6,
    next_sem_id := 6,
    cur_proc := 2 }

/-- A scan over levels whose queues are all empty finds nothing. -/
theorem scanRT_eq_none (rq : RunQs) (l : List Nat) (h : ∀ i ∈ l, rq i = []) :
    scanRT l rq = none := by
  induction l with
  | nil => rfl
  | cons i rest ih =>
    have hi : rq i = [] := h i (by simp)
    rw [scanRT, hi]
    exact ih fun j hj => h j (by simp [hj])

/-- When every randomized check says skip, the regular scan picks nothing
immediately and last_thread_pri ends as lastNonEmpty describes. -/
theorem scanReg_all_skip (rand : Nat → Int) (rq : RunQs)
    (hskip : ∀ k, rand k ≤ 0x3000) (l : List Nat) :
    ∀ (k : Nat) (acc : Option Nat),
      ∃ kOut, scanReg rand l k acc rq = (none, lastNonEmpty rq l acc, kOut) := by
  induction l with
  | nil => intro k acc; exact ⟨k, rfl⟩
  | cons i rest ih =>
    intro k acc
    cases hq : rq i with
    | nil =>
      obtain ⟨kOut, hk⟩ := ih k acc
      exact ⟨kOut, by simp only [scanReg, lastNonEmpty, hq, hk]⟩
    | cons t ts =>
      obtain ⟨kOut, hk⟩ := ih (k + 1) (some i)
      have hr : ¬ (rand k > 0x3000) := by have := hskip k; omega
      refine ⟨kOut, ?_⟩
      simp only [scanReg, lastNonEmpty, hq]
      rw [if_neg hr, hk]

/-- The remembered level is unchanged across a run of empty levels. -/
theorem lastNonEmpty_all_empty (rq : RunQs) (l : List Nat) (acc : Option Nat)
    (h : ∀ i ∈ l, rq i = []) : lastNonEmpty rq l acc = acc := by
  induction l with
  | nil => rfl
  | cons i rest ih =>
    have hi : rq i = [] := h i (by simp)
    simp only [lastNonEmpty, hi]
    exact ih fun j hj => h j (by simp [hj])

/-- lastNonEmpty distributes over list append. -/
theorem lastNonEmpty_append (rq : RunQs) (l1 l2 : List Nat) (acc : Option Nat) :
    lastNonEmpty rq (l1 ++ l2) acc = lastNonEmpty rq l2 (lastNonEmpty rq l1 acc) := by
  induction l1 generalizing acc with
  | nil => rfl
  | cons i rest ih =>
    cases hq : rq i <;> simp only [lastNonEmpty, List.cons_append, hq] <;> apply ih

/-- The regular scan order splits around any level j of the regular band into
the levels above j, then j, then the levels below j in descending order. -/
theorem regScanOrder_decomp (j : Nat) (hj1 : 1 ≤ j) (hj2 : j ≤ 31) :
    regScanOrder =
      (List.range' (j + 1) (31 - j)).reverse ++ j :: (List.range' 1 (j - 1)).reverse := by
  have h1 : 1 + (j - 1) = j := by omega
  have h2 : (32 - j) + (j - 1) = 31 := by omega
  have hsplit := List.range'_append_1 1 (j - 1) (32 - j)
  rw [h1, h2] at hsplit
  have hcons : List.range' j (32 - j) = j :: List.range' (j + 1) (31 - j) := by
    have h3 : 32 - j = (31 - j) + 1 := by omega
    rw [h3, List.range'_succ]
  rw [regScanOrder, THREAD_MIN_PRIORITY, ← hsplit, hcons, List.reverse_append,
    List.reverse_cons, List.append_assoc, List.singleton_append]

/-- Claim C1 (amended): in the dispatcher, when the real-time band is empty
and the randomized check skipped every non-empty regular priority level, the
thread to run is dequeued from the LOWEST-priority non-empty regular level:
during the high-to-low scan every non-empty level overwrites last_thread_pri,
so the fallback that is finally dequeued is the last level remembered, not
the highest. -/
theorem resched_all_skip_picks_lowest (rand : Nat → Int) (rq : RunQs)
    (j t : Nat) (ts : List Nat)
    (hrt : ∀ i, THREAD_MIN_RT_PRIORITY ≤ i → i ≤ THREAD_MAX_RT_PRIORITY → rq i = [])
    (hskip : ∀ k, rand k ≤ 0x3000)
    (hj1 : THREAD_MIN_PRIORITY ≤ j) (hj2 : j ≤ THREAD_MAX_PRIORITY)
    (hq : rq j = t :: ts)
    (hbelow : ∀ i, 1 ≤ i → i < j → rq i = []) :
    (thread_resched_select rand rq).map Prod.fst = some t := by
  rw [THREAD_MIN_PRIORITY] at hj1
  rw [THREAD_MAX_PRIORITY] at hj2
  have hrtnone : scanRT rtScanOrder rq = none := by
    refine scanRT_eq_none rq _ fun i hi => ?_
    rw [rtScanOrder, THREAD_MIN_RT_PRIORITY, List.mem_reverse,
      List.mem_range'_1] at hi
    exact hrt i (by rw [THREAD_MIN_RT_PRIORITY]; omega)
      (by rw [THREAD_MAX_RT_PRIORITY]; omega)
  obtain ⟨kOut, hscan⟩ := scanReg_all_skip rand rq hskip regScanOrder 0 none
  have hlast : lastNonEmpty rq regScanOrder none = some j := by
    rw [regScanOrder_decomp j hj1 hj2, lastNonEmpty_append]
    simp only [lastNonEmpty, hq]
    refine lastNonEmpty_all_empty rq _ _ fun i hi => ?_
    rw [List.mem_reverse, List.mem_range'_1] at hi
    exact hbelow i (by omega) (by omega)
  simp only [thread_resched_select, hrtnone, hscan, hlast, hq]
  rfl

/-- Witness for resched_all_skip_picks_lowest at a concrete input: a single
non-empty regular level 10 holding thread 7, all checks skipping. -/
theorem resched_all_skip_picks_lowest_witness :
    (thread_resched_select (fun _ => 0)
      (fun i => if i = 10 then [7] else [])).map Prod.fst = some 7 :=
  resched_all_skip_picks_lowest (fun _ => 0) _ 10 7 []
    (fun i h1 _ => by rw [THREAD_MIN_RT_PRIORITY] at h1; rw [if_neg (by omega)])
    (fun _ => by norm_num)
    (by decide) (by decide)
    (by simp)
    (fun i _ h2 => by rw [if_neg (by omega)])

/-- Claim C1 (counterexample to the claim as stated): with levels 20 and 10
non-empty (holding threads 100 and 200), the real-time band empty, and the
randomized check skipping both levels, the dispatcher dequeues thread 200
from level 10 - the lowest remembered level - and not thread 100 from the
highest remembered level 20. -/
theorem resched_fallback_counterexample :
    (thread_resched_select (fun _ => 0)
        (fun i => if i = 20 then [100] else if i = 10 then [200] else [])).map
        Prod.fst = some 200 ∧
      (thread_resched_select (fun _ => 0)
        (fun i => if i = 20 then [100] else if i = 10 then [200] else [])).map
        Prod.fst ≠ some 100 := by
  constructor
  · decide
  · decide

/-- Claim C7: run-queue order within one priority level is FIFO
(thread_enqueue tail-inserts, the dispatcher head-removes): with threads A,
B, C enqueued in that order at the single non-empty regular level 10, no
real-time threads and no other runnable threads, and every randomized check
picking immediately (rand value 0x3001 > 0x3000), three successive
dispatcher selections yield A, then B, then C. -/
theorem run_queue_fifo_dispatch (A B C : Nat) :
    reschedPicks (fun _ => 0x3001)
      (fun i => if i = 10 then
        thread_enqueue C (thread_enqueue B (thread_enqueue A [])) else [])
      3 = [A, B, C] := rfl

/-- Witness for run_queue_fifo_dispatch at concrete thread ids 1, 2, 3. -/
theorem run_queue_fifo_dispatch_witness :
    reschedPicks (fun _ => 0x3001)
      (fun i => if i = 10 then
        thread_enqueue 3 (thread_enqueue 2 (thread_enqueue 1 [])) else [])
      3 = [1, 2, 3] :=
  run_queue_fifo_dispatch 1 2 3

/-- Filtering out a freshly consed element whose key occurs nowhere else in
the list restores the list. -/
theorem threads_filter_fresh (t : ThreadRec) (l : List ThreadRec) (v : Int)
    (ht : t.id = v) (hl : ∀ x ∈ l, x.id ≠ v) :
    (t :: l).filter (fun x => x.id ≠ v) = l := by
  rw [List.filter_cons, if_neg (by simp [ht])]
  exact List.filter_eq_self.mpr fun x hx => by simpa using hl x hx

/-- Anything found by procLookup is a member of the list. -/
theorem procLookup_mem (procs : List ProcRec) (id : Int) (p : ProcRec)
    (h : procLookup procs id = some p) : p ∈ procs := by
  induction procs with
  | nil => simp [procLookup] at h
  | cons q rest ih =>
    by_cases hq : q.id = id
    · simp [procLookup, hq] at h
      simp [h]
    · simp [procLookup, hq] at h
      simp [ih h]

/-- procLookup after an id-preserving pointwise update of the target. -/
theorem procLookup_setProc (procs : List ProcRec) (id : Int)
    (f : ProcRec → ProcRec) (hf : ∀ p, (f p).id = p.id) :
    procLookup (setProc procs id f) id = (procLookup procs id).map f := by
  induction procs with
  | nil => rfl
  | cons p rest ih =>
    by_cases hp : p.id = id
    · simp [setProc, procLookup, hp, hf]
    · simp only [setProc, List.map_cons, if_neg hp]
      simp only [procLookup, if_neg hp]
      simpa [setProc] using ih

/-- Specialization of procLookup_setProc to the pgid update of setpgid. -/
theorem procLookup_set_pgid (procs : List ProcRec) (id g : Int) :
    procLookup (setProc procs id (fun q => { q with pgid := g })) id =
      (procLookup procs id).map (fun q => { q with pgid := g }) :=
  procLookup_setProc procs id (fun q => { q with pgid := g }) (fun _ => rfl)

/-- semLookup after sem_delete_etc on the same id returns the tombstone. -/
theorem semLookup_delete (sems : List SemRec) (id rc : Int) :
    semLookup (sem_delete_etc sems id rc) id =
      (semLookup sems id).map fun s => { s with state := SemState.deleted rc } := by
  induction sems with
  | nil => rfl
  | cons s rest ih =>
    by_cases hs : s.id = id
    · simp [sem_delete_etc, semLookup, hs]
    · simp only [sem_delete_etc, List.map_cons, if_neg hs]
      simp only [semLookup, if_neg hs]
      simpa [sem_delete_etc] using ih

/-- Claim C2: every call to _create_thread whose target process id is absent
from the process index or names a process in DEATH returns
ERR_TASK_PROC_DELETED, and the thread record inserted into the global thread
index in the earlier step is removed again, so no entry for the aborted
thread remains in the thread index (the freed record is no longer reachable
from any table); the process index is untouched. The freshness hypothesis
states that the allocator never hands out an id already in the index. -/
theorem create_thread_death_aborts (s : KState) (pid : Int)
    (hdead : procLookup s.procs pid = none ∨
      ∃ p, procLookup s.procs pid = some p ∧ p.state = ProcState.DEATH)
    (hfresh : ∀ x ∈ s.threads, x.id ≠ s.next_thread_id) :
    (_create_thread s pid).1 = ERR_TASK_PROC_DELETED ∧
    (_create_thread s pid).2.threads = s.threads ∧
    (_create_thread s pid).2.procs = s.procs := by
  have hfilter :
      ({ id := s.next_thread_id, proc_id := pid,
         return_code_sem := s.next_sem_id, state := .BIRTH,
         priority := (THREAD_MEDIUM_PRIORITY : Nat), user_stack_base := 0,
         user_time := 0, kernel_time := 0 } ::
            s.threads).filter (fun x => x.id ≠ s.next_thread_id) = s.threads :=
    threads_filter_fresh _ _ _ rfl hfresh
  rcases hdead with hnone | ⟨p, hp, hdeath⟩
  · simp only [_create_thread, hnone, hfilter]
    exact ⟨trivial, trivial, trivial⟩
  · simp only [_create_thread, hp, if_pos hdeath, hfilter]
    exact ⟨trivial, trivial, trivial⟩

/-- Witness for create_thread_death_aborts: creating a thread in process 3
of exampleState, which is in DEATH, fails and leaves the thread index as it
was. -/
theorem create_thread_death_aborts_witness :
    (_create_thread exampleState 3).1 = ERR_TASK_PROC_DELETED ∧
    (_create_thread exampleState 3).2.threads = exampleState.threads :=
  ⟨(create_thread_death_aborts exampleState 3
      (Or.inr ⟨{ id := 3, pgid := 1, sid := 1, parent := 1, state := .DEATH,
                 main_thread := none, num_threads := 0 }, by decide, rfl⟩)
      (by decide)).1,
   (create_thread_death_aborts exampleState 3
      (Or.inr ⟨{ id := 3, pgid := 1, sid := 1, parent := 1, state := .DEATH,
                 main_thread := none, num_threads := 0 }, by decide, rfl⟩)
      (by decide)).2.1⟩

/-- Claim C3: thread_wait_on_thread returns the exit code the target passed
to thread_exit. First conjunct: when the target is in the thread index with
a valid return-code sem that exists in the sem table, and the waiter wakes
after the exiting thread deleted that sem with its retcode
(thread_exit_publish_retcode), the acquire yields ERR_SEM_DELETED with the
retcode, which the code normalizes to NO_ERROR, so the call returns success
and stores the retcode. Second conjunct: for an id not present in the thread
index the call fails with a negative error, whatever the sem table looks
like at wake time. -/
theorem wait_on_thread_returns_exit_code (s : KState) (id rc : Int)
    (t : ThreadRec) (semsAny : List SemRec) :
    (threadLookup s.threads id = some t → t.return_code_sem ≥ 0 →
      (∃ sr, semLookup s.sems t.return_code_sem = some sr) →
      thread_wait_on_thread s (thread_exit_publish_retcode s id rc).sems id
        = (NO_ERROR, some rc)) ∧
    (threadLookup s.threads id = none →
      (thread_wait_on_thread s semsAny id).1 < 0) := by
  constructor
  · rintro ht hsem ⟨sr, hsr⟩
    have hpub : (thread_exit_publish_retcode s id rc).sems
        = sem_delete_etc s.sems t.return_code_sem rc := by
      simp only [thread_exit_publish_retcode, ht]
    have hacq : sem_acquire_etc (sem_delete_etc s.sems t.return_code_sem rc)
        t.return_code_sem = (ERR_SEM_DELETED, some rc) := by
      rw [sem_acquire_etc, if_neg (by omega), semLookup_delete, hsr]
      rfl
    simp only [thread_wait_on_thread, send_signal_etc, ht, hpub, hacq]
    norm_num [NO_ERROR, ERR_SEM_DELETED]
  · intro ht
    simp only [thread_wait_on_thread, send_signal_etc, ht]
    norm_num [NO_ERROR, ERR_INVALID_HANDLE]

/-- Witness for wait_on_thread_returns_exit_code: thread 4 of exampleState
exits with code 42; a waiter that sampled before the exit and wakes after it
gets (NO_ERROR, 42); waiting on the unknown id 9 fails negatively. -/
theorem wait_on_thread_returns_exit_code_witness :
    thread_wait_on_thread exampleState
        (thread_exit_publish_retcode exampleState 4 42).sems 4
      = (NO_ERROR, some 42) ∧
    (thread_wait_on_thread exampleState exampleState.sems 9).1 < 0 :=
  ⟨(wait_on_thread_returns_exit_code exampleState 4 42
      { id := 4, proc_id := 2, return_code_sem := 5, state := .READY,
        priority := 16, user_stack_base := 0, user_time := 3, kernel_time := 7 }
      exampleState.sems).1 (by decide) (by decide)
      ⟨⟨5, .active⟩, by decide⟩,
   (wait_on_thread_returns_exit_code exampleState 9 0
      { id := 4, proc_id := 2, return_code_sem := 5, state := .READY,
        priority := 16, user_stack_base := 0, user_time := 3, kernel_time := 7 }
      exampleState.sems).2 (by decide)⟩

/-- The Bool test on the parent of a member unpacks to an existential over
the result of the lookup. -/
theorem parent_pgid_match_iff (o : Option ProcRec) (c : Int) :
    (match o with
      | some par => par.pgid == c
      | none => false) = true ↔ ∃ par, o = some par ∧ par.pgid = c := by
  cases o <;> simp

/-- The Bool test against the ignored process unpacks to a guarded
disequality. -/
theorem ignore_match_iff (ignore : Option Int) (qid : Int) :
    (match ignore with
      | some ig => qid != ig
      | none => true) = true ↔ ∀ ig, ignore = some ig → qid ≠ ig := by
  cases ignore <;> simp

/-- Claim C4: check_for_pgrp_connection(pgid, check_for, ignore) returns true
iff some member process of pgroup pgid (a process whose pgid field names the
group, as the member list ASSERTs), other than ignore, has a parent whose
pgid equals check_for; and the main-thread exit path sends SIGHUP then
SIGCONT to the pgroup of the exiting process when that process shares its
session but not its pgroup with its parent and the predicate, with the
exiting process ignored and the parent pgid as check_for, is false. -/
theorem pgrp_connection_iff_and_orphan_signals (s : KState)
    (pgid check_for : Int) (ignore : Option Int) (p par : ProcRec) :
    (pgid ∈ s.pgroups →
      (check_for_pgrp_connection s pgid check_for ignore = true ↔
        ∃ q ∈ s.procs, q.pgid = pgid ∧ (∀ ig, ignore = some ig → q.id ≠ ig) ∧
          ∃ parq, procLookup s.procs q.parent = some parq ∧
            parq.pgid = check_for)) ∧
    (procLookup s.procs p.parent = some par → p.sid = par.sid →
      p.pgid ≠ par.pgid →
      check_for_pgrp_connection s p.pgid par.pgid (some p.id) = false →
      thread_exit_orphan_signals s p = [(p.pgid, SIGHUP), (p.pgid, SIGCONT)]) := by
  constructor
  · intro hmem
    rw [check_for_pgrp_connection, if_pos hmem, List.any_eq_true]
    constructor
    · rintro ⟨q, hq, hcond⟩
      simp only [Bool.and_eq_true, beq_iff_eq, parent_pgid_match_iff,
        ignore_match_iff] at hcond
      exact ⟨q, hq, hcond.1.1, hcond.1.2, hcond.2⟩
    · rintro ⟨q, hq, h1, h2, h3⟩
      refine ⟨q, hq, ?_⟩
      simp only [Bool.and_eq_true, beq_iff_eq, parent_pgid_match_iff,
        ignore_match_iff]
      exact ⟨⟨h1, h2⟩, h3⟩
  · intro hpar hsid hpgid hconn
    simp only [thread_exit_orphan_signals, hpar]
    rw [if_pos ⟨hsid, hpgid⟩]
    simp [hconn]

/-- Witness for pgrp_connection_iff_and_orphan_signals in exampleState:
pgroup 2 is connected to pgroup 1 when nothing is ignored (process 2 has
parent 1 in pgroup 1), and when process 2 exits (same session 1 as its
parent, different pgroup) the group becomes orphaned and SIGHUP then SIGCONT
go to pgroup 2. -/
theorem pgrp_connection_iff_and_orphan_signals_witness :
    check_for_pgrp_connection exampleState 2 1 none = true ∧
    thread_exit_orphan_signals exampleState
        { id := 2, pgid := 2, sid := 1, parent := 1, state := .NORMAL,
          main_thread := some 4, num_threads := 1 }
      = [(2, SIGHUP), (2, SIGCONT)] :=
  by
  constructor
  · refine ((pgrp_connection_iff_and_orphan_signals exampleState 2 1 none
      { id := 2, pgid := 2, sid := 1, parent := 1, state := .NORMAL,
        main_thread := some 4, num_threads := 1 }
      { id := 1, pgid := 1, sid := 1, parent := 1, state := .NORMAL,
        main_thread := some 1, num_threads := 1 }).1 (by decide)).mpr ?_
    refine ⟨{ id := 2, pgid := 2, sid := 1, parent := 1, state := .NORMAL,
              main_thread := some 4, num_threads := 1 }, by decide, rfl, ?_,
            { id := 1, pgid := 1, sid := 1, parent := 1, state := .NORMAL,
              main_thread := some 1, num_threads := 1 }, by decide, rfl⟩
    intro ig h
    cases h
  · exact (pgrp_connection_iff_and_orphan_signals exampleState 2 1 none
      { id := 2, pgid := 2, sid := 1, parent := 1, state := .NORMAL,
        main_thread := some 4, num_threads := 1 }
      { id := 1, pgid := 1, sid := 1, parent := 1, state := .NORMAL,
        main_thread := some 1, num_threads := 1 }).2
      (by decide) rfl (by decide) (by decide)

/-- Claim C5 (code bug demonstrated): process 2 of exampleState is not the
leader of its own session (its sid is 1). setsid does move it into the
session named by its own id, creating the session node, and a second call
changes nothing and returns the same value - but both calls return err,
which is NO_ERROR (0), through the sess_id return type, never the new sid
(2). The new sid is therefore not the return value, contradicting the
claim and the POSIX-shaped sess_id signature of the function. -/
theorem setsid_returns_error_code_not_sid :
    (setsid exampleState).1 = NO_ERROR ∧
    (procLookup (setsid exampleState).2.procs 2).map ProcRec.sid = some 2 ∧
    (2 : Int) ∈ (setsid exampleState).2.sessions ∧
    (setsid exampleState).1 ≠ 2 ∧
    setsid (setsid exampleState).2 = (NO_ERROR, (setsid exampleState).2) := by
  refine ⟨by decide, by decide, by decide, by decide, by decide⟩

/-- Claim C6: whenever setpgid(pid0, pgid0) succeeds with NO_ERROR, a
subsequent getpgid(pid0) returns the normalized target group npgid, where
pid0 = 0 stands for the calling process and pgid0 = 0 for the (normalized)
pid. -/
theorem setpgid_getpgid_roundtrip (s : KState) (pid0 pgid0 npgid : Int)
    (hok : (setpgid s pid0 pgid0).1 = NO_ERROR)
    (hn : npgid =
      if pgid0 = 0 then (if pid0 = 0 then s.cur_proc else pid0) else pgid0) :
    getpgid (setpgid s pid0 pgid0).2 pid0 = npgid := by
  by_cases hneg : pid0 < 0 ∨ pgid0 < 0
  · rw [setpgid, if_pos hneg] at hok
    exact absurd hok (by rw [ERR_INVALID_ARGS, NO_ERROR]; omega)
  · have hp0 : ¬ pid0 < 0 := fun h => hneg (Or.inl h)
    simp only [setpgid, if_neg hneg] at hok ⊢
    simp only [getpgid, if_neg hp0]
    cases hl : procLookup s.procs (if pid0 = 0 then s.cur_proc else pid0) with
    | none =>
      simp only [hl] at hok
      exact absurd hok (by rw [ERR_NOT_FOUND, NO_ERROR]; omega)
    | some p =>
      simp only [hl] at hok ⊢
      by_cases hpe : p.pgid =
          (if pgid0 = 0 then (if pid0 = 0 then s.cur_proc else pid0) else pgid0)
      · simp only [if_pos hpe, hl, hn]
        exact hpe
      · simp only [if_neg hpe]
        by_cases hg :
            (if pgid0 = 0 then (if pid0 = 0 then s.cur_proc else pid0)
              else pgid0) ∈ s.pgroups
        · simp only [if_pos hg, procLookup_set_pgid, hl, Option.map_some', hn]
        · simp only [if_neg hg, procLookup_set_pgid, hl, Option.map_some', hn]

/-- Witness for setpgid_getpgid_roundtrip: moving process 2 of exampleState
into the fresh group 7 succeeds, and getpgid then reports 7. -/
theorem setpgid_getpgid_roundtrip_witness :
    getpgid (setpgid exampleState 2 7).2 2 = 7 :=
  setpgid_getpgid_roundtrip exampleState 2 7 7 (by decide) (by decide)

/-- Claim C8: on every context switch the outgoing thread accrues
now - last_time into kernel_time when its last_time_type is KERNEL_TIME and
into user_time otherwise, the incoming thread gets last_time = now, and -
assuming the clock is monotone (now is at least the outgoing last_time) -
the sum of user_time + kernel_time over the two threads touched by the
switch does not decrease (no other thread is modified). -/
theorem context_switch_time_accounting (t_from t_to : SchedTimes) (now : Int)
    (hmono : t_from.last_time ≤ now) :
    (thread_context_switch_times t_from t_to now).2.last_time = now ∧
    (t_from.last_time_type = TimeType.KERNEL_TIME →
      (thread_context_switch_times t_from t_to now).1.kernel_time
          = t_from.kernel_time + (now - t_from.last_time) ∧
        (thread_context_switch_times t_from t_to now).1.user_time
          = t_from.user_time) ∧
    (t_from.last_time_type ≠ TimeType.KERNEL_TIME →
      (thread_context_switch_times t_from t_to now).1.user_time
          = t_from.user_time + (now - t_from.last_time) ∧
        (thread_context_switch_times t_from t_to now).1.kernel_time
          = t_from.kernel_time) ∧
    t_from.user_time + t_from.kernel_time + t_to.user_time + t_to.kernel_time ≤
      (thread_context_switch_times t_from t_to now).1.user_time
        + (thread_context_switch_times t_from t_to now).1.kernel_time
        + (thread_context_switch_times t_from t_to now).2.user_time
        + (thread_context_switch_times t_from t_to now).2.kernel_time := by
  refine ⟨?_, ?_, ?_, ?_⟩
  · by_cases hk : t_from.last_time_type = TimeType.KERNEL_TIME <;>
      simp [thread_context_switch_times, hk]
  · intro hk
    simp [thread_context_switch_times, hk]
  · intro hk
    simp [thread_context_switch_times, hk]
  · by_cases hk : t_from.last_time_type = TimeType.KERNEL_TIME <;>
      simp [thread_context_switch_times, hk] <;> omega

/-- Witness for context_switch_time_accounting: a kernel-accruing outgoing
thread at time 50 switched out at time 60 gains 10 units of kernel time and
the pairwise time sum grows. -/
theorem context_switch_time_accounting_witness :
    (thread_context_switch_times ⟨1, 2, 50, .KERNEL_TIME⟩ ⟨3, 4, 9, .USER_TIME⟩
        60).1.kernel_time = 12 ∧
    (thread_context_switch_times ⟨1, 2, 50, .KERNEL_TIME⟩ ⟨3, 4, 9, .USER_TIME⟩
        60).2.last_time = 60 := by
  have h := context_switch_time_accounting ⟨1, 2, 50, .KERNEL_TIME⟩
    ⟨3, 4, 9, .USER_TIME⟩ 60 (by decide)
  exact ⟨(h.2.1 rfl).1, h.1⟩

/-- Claim C9: proc_wait_on_proc treats a process whose main_thread pointer
is unset exactly like an unknown id, returning ERR_INVALID_HANDLE; whereas
proc_kill_proc and proc_get_main_thread dereference main_thread with no null
check on any process found in the index (none marks the undefined
dereference), and they are well-defined for every id precisely under the
precondition that every indexed process has a designated main thread. -/
theorem main_thread_null_check_asymmetry (s : KState) (id : Int) :
    (procLookup s.procs id = none →
      proc_wait_on_proc_tid s id = ERR_INVALID_HANDLE) ∧
    (∀ p, procLookup s.procs id = some p → p.main_thread = none →
      proc_wait_on_proc_tid s id = ERR_INVALID_HANDLE ∧
      proc_kill_proc_tid s id = none ∧
      proc_get_main_thread s id = none) ∧
    ((∀ p ∈ s.procs, p.main_thread ≠ none) →
      proc_kill_proc_tid s id ≠ none ∧ proc_get_main_thread s id ≠ none) := by
  refine ⟨?_, ?_, ?_⟩
  · intro h
    simp [proc_wait_on_proc_tid, h]
  · intro p hp hm
    simp [proc_wait_on_proc_tid, proc_kill_proc_tid, proc_get_main_thread,
      hp, hm]
  · intro hall
    cases hl : procLookup s.procs id with
    | none =>
      simp [proc_kill_proc_tid, proc_get_main_thread, hl]
    | some p =>
      have hmem := procLookup_mem s.procs id p hl
      cases hm : p.main_thread with
      | none => exact absurd hm (hall p hmem)
      | some tid =>
        simp [proc_kill_proc_tid, proc_get_main_thread, hl, hm]

/-- Witness for main_thread_null_check_asymmetry: process 3 of exampleState
is indexed but has no main thread; proc_wait_on_proc computes
ERR_INVALID_HANDLE for it while proc_kill_proc and proc_get_main_thread hit
the null dereference. -/
theorem main_thread_null_check_asymmetry_witness :
    proc_wait_on_proc_tid exampleState 3 = ERR_INVALID_HANDLE ∧
    proc_kill_proc_tid exampleState 3 = none ∧
    proc_get_main_thread exampleState 3 = none :=
  (main_thread_null_check_asymmetry exampleState 3).2.1
    { id := 3, pgid := 1, sid := 1, parent := 1, state := .DEATH,
      main_thread := none, num_threads := 0 }
    (by decide) rfl

/-- Claim C10: thread_get_thread_info and proc_get_proc_info leave the
caller-supplied output structure entirely unwritten (second component none)
when the id is not in the corresponding index, failing with
ERR_INVALID_HANDLE; the info is copied out exactly when the call returns
success. -/
theorem get_info_writes_only_on_success (s : KState) (id : Int) :
    (threadLookup s.threads id = none →
      thread_get_thread_info s id = (ERR_INVALID_HANDLE, none)) ∧
    (∀ t, threadLookup s.threads id = some t →
      ∃ info, thread_get_thread_info s id = (NO_ERROR, some info)) ∧
    (procLookup s.procs id = none →
      proc_get_proc_info s id = (ERR_INVALID_HANDLE, none)) ∧
    (∀ p, procLookup s.procs id = some p →
      ∃ info, proc_get_proc_info s id = (NO_ERROR, some info)) := by
  refine ⟨?_, ?_, ?_, ?_⟩
  · intro h
    simp [thread_get_thread_info, h, ERR_INVALID_HANDLE]
  · intro t ht
    refine ⟨{ id := id, owner_proc_id := t.proc_id, state := t.state,
              priority := t.priority, user_stack_base := t.user_stack_base,
              user_time := t.user_time, kernel_time := t.kernel_time }, ?_⟩
    simp [thread_get_thread_info, ht, NO_ERROR]
  · intro h
    simp [proc_get_proc_info, h, ERR_INVALID_HANDLE]
  · intro p hp
    refine ⟨{ pid := id, ppid := p.parent, pgid := p.pgid, sid := p.sid,
              state := p.state, num_threads := p.num_threads }, ?_⟩
    simp [proc_get_proc_info, hp, NO_ERROR]

/-- Witness for get_info_writes_only_on_success: the unknown id 9 leaves
both output structures unwritten in exampleState. -/
theorem get_info_writes_only_on_success_witness :
    thread_get_thread_info exampleState 9 = (ERR_INVALID_HANDLE, none) ∧
    proc_get_proc_info exampleState 9 = (ERR_INVALID_HANDLE, none) :=
  ⟨(get_info_writes_only_on_success exampleState 9).1 (by decide),
   (get_info_writes_only_on_success exampleState 9).2.2.1 (by decide)⟩

end NewOS
